import Mathlib

/-!
Verification of the mcpgmail MIME composition / decomposition core.

This file gives a shallow embedding, in Lean 4, of the pure data
transformations performed by `src/gmail_server.py` of the `mcpgmail`
repository: the MIME message construction of `send_email` and
`send_email_with_multiple_attachments`, the recursive body/attachment
extraction of `read_email` (the nested function `get_body_and_attachments`
together with the body-resolution logic that follows it), the
HTML-to-text reduction, the attachment size formatting, the draft-merge
logic of `update_email_draft`, and the read-before-modify guard of
`mark_as_read`.

Modelling conventions:

* Python `Optional[str]` parameters become `Option String`; Python
  truthiness tests on strings (`if cc:`) become tests against the empty
  string.
* A Gmail API message part (`payload`, with its `mimeType`, `filename`,
  `body.data`, `body.size` and `parts` fields) becomes the inductive
  `MimePart`.  The `data` field of a part stores the base64url-encoded
  content in the wire format; everywhere the Python code touches it, it
  immediately decodes it (`base64.urlsafe_b64decode(...).decode('utf-8',
  errors='replace')`).  We model `data` as the already-decoded text,
  using that base64url decode composed with base64url encode, and UTF-8
  decode composed with UTF-8 encode, are both the identity; the
  `errors='replace'` decoding is total and never raises, matching the
  totality of every Lean function here.
* Python's float formatting `f"{size/1024:.1f}"` is modelled exactly:
  for `size < 2^53` the double `size/1024` is the exact rational value
  (a division by a power of two), and `%.1f` produces the correctly
  rounded one-decimal representation with ties going to an even last
  digit (round-half-even); `roundHalfEvenDiv` computes that rounding on
  exact naturals.
* The regex substitutions of the HTML-to-text reduction are implemented
  as character-list scanners that mirror Python `re.sub` semantics
  (leftmost scan, alternation tried in order, `.` not matching a
  newline, `*?` taking the shortest match).  They are written with an
  explicit fuel argument (initialised with the length of the input) so
  that they are structurally recursive and compute by `rfl`; every step
  of the scanner consumes at least one character, so the fuel is never
  exhausted on the original call.
-/

namespace Mcpgmail

/-! Model: attachment size formatting (`read_email`, lines 887-892)

```python
size = int(payload['body'].get('size', 0))
size_str = f"{size} bytes"
if size > 1024:
    size_str = f"{size/1024:.1f} KB"
if size > 1024*1024:
    size_str = f"{size/1024/1024:.1f} MB"
```
-/

/-- Correctly rounded quotient `q / d` to the nearest integer, ties to
even — exactly how Python's `%.1f` formatting rounds the exact binary
value `q / d` when `d` is a power of two and `q < 2^53`. -/
def roundHalfEvenDiv (q d : Nat) : Nat :=
  let k := q / d
  let r := q % d
  if 2 * r < d then k
  else if d < 2 * r then k + 1
  else if k % 2 = 0 then k else k + 1

/-- Python `f"\x7bnum/den:.1f\x7d"` for exact binary rationals: the
quotient rendered with exactly one decimal digit. -/
def fmtOneDecimal (num den : Nat) : String :=
  let t := roundHalfEvenDiv (num * 10) den
  toString (t / 10) ++ "." ++ toString (t % 10)

/-- The human-readable attachment size string computed by `read_email`:
start from `"{size} bytes"`, overwrite with KB when `size > 1024`, then
overwrite with MB when `size > 1024*1024` (strict comparisons, no upper
threshold). -/
def size_str (size : Nat) : String :=
  let s0 := toString size ++ " bytes"
  let s1 := if 1024 < size then fmtOneDecimal size 1024 ++ " KB" else s0
  if 1024 * 1024 < size then fmtOneDecimal size (1024 * 1024) ++ " MB" else s1

/-! Model: importance headers (`send_email`, lines 142-149)

```python
if importance:
    if importance.lower() == "high":
        message['Importance'] = 'high'
        message['X-Priority'] = '1'
    elif importance.lower() == "low":
        message['Importance'] = 'low'
        message['X-Priority'] = '5'
```
-/

/-- Python `str.lower()` on a single character, for the ASCII range the
header keywords live in. -/
def lowerChar (c : Char) : Char :=
  if 'A' ≤ c ∧ c ≤ 'Z' then Char.ofNat (c.toNat + 32) else c

/-- Python `str.lower()` (ASCII range). -/
def lowerString (s : String) : String :=
  String.mk (s.toList.map lowerChar)

/-- The extra headers `send_email` adds for the optional `importance`
argument.  `if importance:` is Python truthiness, so `None` and the
empty string add nothing; the match on `importance.lower()` is
case-insensitive; any unrecognized value silently adds nothing. -/
def importance_headers (importance : Option String) : List (String × String) :=
  match importance with
  | none => []
  | some imp =>
    if imp = "" then []
    else if lowerString imp = "high" then [("Importance", "high"), ("X-Priority", "1")]
    else if lowerString imp = "low" then [("Importance", "low"), ("X-Priority", "5")]
    else []

/-- Python `if cc: message['Cc'] = cc` — a header added only when the
optional argument is truthy. -/
def optional_header (name : String) : Option String → List (String × String)
  | some v => if v = "" then [] else [(name, v)]
  | none => []

/-- All headers `send_email` sets on the outgoing message: `To`,
`Subject`, `From`, then `Cc`/`Bcc` when truthy, then the importance
headers. -/
def send_email_headers (toAddr subject from_email : String) (cc bcc : Option String)
    (importance : Option String) : List (String × String) :=
  [("To", toAddr), ("Subject", subject), ("From", from_email)]
    ++ optional_header "Cc" cc
    ++ optional_header "Bcc" bcc
    ++ importance_headers importance

/-! Model: the Gmail payload tree -/

/-- A node of the Gmail API message payload tree, as consumed by
`read_email` and `update_email_draft`.  Fields mirror the JSON object:
`mimeType`, `filename` (Gmail sends `""` for non-attachment parts),
`body.data` (modelled as the decoded text, `none` when the `data` key
is absent), `body.size`, and the `parts` list of children (absent key
modelled as `[]`, which the code treats identically). -/
inductive MimePart where
  | node (mimeType : String) (filename : String) (data : Option String)
      (size : Nat) (parts : List MimePart) : MimePart

/-- Attachment record produced by `read_email`'s extraction:
`{'filename': ..., 'mimeType': ..., 'size': size_str}` -/
structure AttachmentInfo where
  filename : String
  mimeType : String
  size : String
deriving DecidableEq, Repr

mutual

/-- The nested function `get_body_and_attachments(payload, attachments)`
of `read_email` (lines 868-913): if the part has non-empty inline data
it is recorded as a `(mimeType, decodedText)` content leaf and the
function returns immediately; otherwise a non-empty `filename` makes it
an attachment leaf (recorded only when `include_attachments` is set);
otherwise the children are processed in order, threading the attachment
accumulator; a part with none of these contributes nothing. -/
def get_body_and_attachments (include_attachments : Bool) :
    MimePart → List AttachmentInfo → List (String × String) × List AttachmentInfo
  | .node mimeType filename data size parts, attachments =>
    if data.getD "" ≠ "" then
      ([(mimeType, data.getD "")], attachments)
    else if filename ≠ "" then
      ([],
        if include_attachments then
          attachments ++ [⟨filename, mimeType, size_str size⟩]
        else attachments)
    else
      gba_parts include_attachments parts attachments

/-- The per-child loop (`for part in payload['parts']`) of
`get_body_and_attachments`:
recurse into each child in order, concatenating body fragments and
threading the attachment list. -/
def gba_parts (include_attachments : Bool) :
    List MimePart → List AttachmentInfo → List (String × String) × List AttachmentInfo
  | [], attachments => ([], attachments)
  | p :: ps, attachments =>
    let r := get_body_and_attachments include_attachments p attachments
    let rs := gba_parts include_attachments ps r.2
    (r.1 ++ rs.1, rs.2)

end

/-! Model: HTML-to-text reduction (`read_email`, lines 924-931)

```python
body = re.sub(r'<br\s*/?>|</(p|div|h\d)>', '\n', body)
body = re.sub(r'<.*?>', '', body)
body = re.sub(r'&nbsp;', ' ', body)
body = re.sub(r'&lt;', '<', body)
body = re.sub(r'&gt;', '>', body)
body = re.sub(r'&amp;', '&', body)
```
-/

/-- Python's `\s` on the ASCII range: space, tab, newline, carriage
return, vertical tab, form feed. -/
def isSpaceChar (c : Char) : Bool :=
  c = ' ' || c = '\t' || c = '\n' || c = '\r' || c = '\x0b' || c = '\x0c'

/-- Match the tail of the `<br\s*/?>` branch after the literal `<br`:
maximal run of whitespace, an optional `/`, then `>`.  (`\s` matches
neither `/` nor `>`, so the greedy `\s*` needs no backtracking.)
Returns the remainder after the match. -/
def matchBrTail (cs : List Char) : Option (List Char) :=
  match cs.dropWhile isSpaceChar with
  | '/' :: '>' :: rest => some rest
  | '>' :: rest => some rest
  | _ => none

/-- Match the tail of the `</(p|div|h\d)>` branch after the literal
`</`: one of the three group alternatives, tried in order, followed by
`>`.  Returns the remainder after the match. -/
def matchCloseTail (cs : List Char) : Option (List Char) :=
  match cs with
  | 'p' :: '>' :: rest => some rest
  | 'd' :: 'i' :: 'v' :: '>' :: rest => some rest
  | 'h' :: d :: '>' :: rest => if d.isDigit then some rest else none
  | _ => none

/-- Match the full alternation `<br\s*/?>|</(p|div|h\d)>` at the head of
the input (the two branches start with distinct literals `<b` and `</`).
Returns the remainder after the match. -/
def matchNewlineTag (cs : List Char) : Option (List Char) :=
  match cs with
  | '<' :: 'b' :: 'r' :: rest => matchBrTail rest
  | '<' :: '/' :: rest => matchCloseTail rest
  | _ => none

/-- Python `re.sub(r'<br\s*/?>|</(p|div|h\d)>', '\n', body)`: leftmost scan,
replacing each match by a newline.  Fuelled; each match consumes at
least one character, so fuel `cs.length` always suffices. -/
def subNewlineTagsAux : Nat → List Char → List Char
  | 0, cs => cs
  | _ + 1, [] => []
  | fuel + 1, c :: cs =>
    match matchNewlineTag (c :: cs) with
    | some rest => '\n' :: subNewlineTagsAux fuel rest
    | none => c :: subNewlineTagsAux fuel cs

def subNewlineTags (cs : List Char) : List Char :=
  subNewlineTagsAux cs.length cs

/-- The lazy `.*?>` tail of `<.*?>` after the opening `<`: `.` does not
match a newline, and `*?` takes the shortest match, so this finds the
first `>` before any newline and returns the remainder after it. -/
def afterFirstGt : List Char → Option (List Char)
  | [] => none
  | '>' :: rest => some rest
  | '\n' :: _ => none
  | _ :: rest => afterFirstGt rest

/-- Python `re.sub(r'<.*?>', '', body)`: leftmost scan deleting each
shortest-match tag.  Fuelled as above. -/
def stripTagsAux : Nat → List Char → List Char
  | 0, cs => cs
  | _ + 1, [] => []
  | fuel + 1, '<' :: cs =>
    match afterFirstGt cs with
    | some rest => stripTagsAux fuel rest
    | none => '<' :: stripTagsAux fuel cs
  | fuel + 1, c :: cs => c :: stripTagsAux fuel cs

def stripTags (cs : List Char) : List Char :=
  stripTagsAux cs.length cs

/-- Python `re.sub` with a literal pattern (the entity substitutions):
leftmost
non-overlapping replacement of every occurrence of `pat` by `rep`.
Fuelled; `pat` is non-empty at every call site. -/
def replaceAllAux (pat rep : List Char) : Nat → List Char → List Char
  | 0, cs => cs
  | _ + 1, [] => []
  | fuel + 1, c :: cs =>
    if pat ≠ [] ∧ pat.isPrefixOf (c :: cs) then
      rep ++ replaceAllAux pat rep fuel ((c :: cs).drop pat.length)
    else
      c :: replaceAllAux pat rep fuel cs

def replaceAll (pat rep cs : List Char) : List Char :=
  replaceAllAux pat rep cs.length cs

/-- The "very simple HTML to text conversion" of `read_email`: the six
chained `re.sub` calls — newline substitution of `<br>`-like and
closing block tags, lazy stripping of all remaining tags, then the
entity substitutions `&nbsp;`, `&lt;`, `&gt;`, `&amp;` in that order. -/
def html_to_text (s : String) : String :=
  let b1 := subNewlineTags s.toList
  let b2 := stripTags b1
  let b3 := replaceAll "&nbsp;".toList " ".toList b2
  let b4 := replaceAll "&lt;".toList "<".toList b3
  let b5 := replaceAll "&gt;".toList ">".toList b4
  let b6 := replaceAll "&amp;".toList "&".toList b5
  String.mk b6

/-! Model: body resolution (`read_email`, lines 917-933) -/

/-- The placeholder body used when no text fragment was found. -/
def noBodyPlaceholder : String :=
  "Unable to extract email body content. The email might be empty or contain only non-text attachments."

/-- Body resolution over the collected `(mimeType, content)` fragments:
prefer the newline-join of all `text/plain` fragments; otherwise reduce
the first `text/html` fragment to text; otherwise the placeholder. -/
def resolveBody (parts : List (String × String)) : String :=
  let plain_text_parts := (parts.filter (fun p => p.1 = "text/plain")).map (·.2)
  let html_parts := (parts.filter (fun p => p.1 = "text/html")).map (·.2)
  if plain_text_parts ≠ [] then
    String.intercalate "\n" plain_text_parts
  else
    match html_parts with
    | h :: _ => html_to_text h
    | [] => noBodyPlaceholder

/-- The body text and attachment list `read_email` derives from a
message payload: run the recursive extraction, then resolve the body. -/
def read_email_body (include_attachments : Bool) (payload : MimePart) :
    String × List AttachmentInfo :=
  let r := get_body_and_attachments include_attachments payload []
  (resolveBody r.1, r.2)

/-! Model: message composition (`send_email`, lines 130-156) -/

/-- The payload tree of the message `send_email` composes: a
`multipart/alternative` container holding the plain-text body and, when
`html_body` is truthy, a `text/html` alternative after it. -/
def send_email_payload (body : String) (html_body : Option String) : MimePart :=
  .node "multipart/alternative" "" none 0
    ([.node "text/plain" "" (some body) 0 []]
      ++ (match html_body with
          | some h => if h = "" then [] else [.node "text/html" "" (some h) 0 []]
          | none => []))

/-! Spec-side model: greedy tag stripping, following the specification's words

The specification describes the tag-stripping step as "a greedy `<...>`
pattern match".  The following definitions formalise that reading — a
regex `<.*>` whose `.*` is greedy (longest match within the line, `.`
still not matching a newline) — so it can be compared against the
non-greedy `<.*?>` the code actually uses. -/

/-- Greedy `.*>` after an opening `<`: consume as much of the current
line as possible and backtrack to the last `>` in it; the remainder
after that `>` is returned. -/
def afterLastGt : List Char → Option (List Char)
  | [] => none
  | '\n' :: _ => none
  | c :: rest =>
    match afterLastGt rest with
    | some r => some r
    | none => if c = '>' then some rest else none

/-- Greedy variant of the tag-stripping scan, per the specification's
"greedy `<...>` pattern match" wording. -/
def stripTagsGreedyAux : Nat → List Char → List Char
  | 0, cs => cs
  | _ + 1, [] => []
  | fuel + 1, '<' :: cs =>
    match afterLastGt cs with
    | some rest => stripTagsGreedyAux fuel rest
    | none => '<' :: stripTagsGreedyAux fuel cs
  | fuel + 1, c :: cs => c :: stripTagsGreedyAux fuel cs

def stripTagsGreedy (cs : List Char) : List Char :=
  stripTagsGreedyAux cs.length cs

/-- The HTML-to-text reduction exactly as the specification words it:
identical to `html_to_text` except that the tag-stripping step is the
greedy match.  Used to refute the "greedy" part of the claim. -/
def html_to_text_spec_greedy (s : String) : String :=
  let b1 := subNewlineTags s.toList
  let b2 := stripTagsGreedy b1
  let b3 := replaceAll "&nbsp;".toList " ".toList b2
  let b4 := replaceAll "&lt;".toList "<".toList b3
  let b5 := replaceAll "&gt;".toList ">".toList b4
  let b6 := replaceAll "&amp;".toList "&".toList b5
  String.mk b6

/-! Model: multi-attachment missing-file policy
(`send_email_with_multiple_attachments`, lines 347-391)

```python
for attachment_path in attachment_paths:
    if os.path.isfile(attachment_path):
        ... attach ...; attached_files.append(filename)
    else:
        missing_files.append(attachment_path)
if missing_files:
    warning ...
    if not attached_files:
        return "Error: None of the specified attachment files were found. Email not sent."
... send ...
```
-/

/-- Outcome of `send_email_with_multiple_attachments` restricted to its
attachment policy: either the error return with no send performed, or a
send carrying the successfully attached file names and the list of
missing paths reported in the warning (empty list: no warning). -/
inductive MultiSendOutcome where
  | errorNotSent : MultiSendOutcome
  | sent (attached_files : List String) (warned_missing : List String) : MultiSendOutcome
deriving DecidableEq, Repr

/-- The attachment-collection and missing-file policy of
`send_email_with_multiple_attachments`.  `resolve` models
`os.path.isfile` plus reading: `some filename` when the path resolves
to readable content (the basename it is attached under), `none` when
missing. -/
def send_email_with_multiple_attachments (resolve : String → Option String)
    (attachment_paths : List String) : MultiSendOutcome :=
  let attached_files := attachment_paths.filterMap resolve
  let missing_files := attachment_paths.filter (fun p => (resolve p).isNone)
  if missing_files ≠ [] ∧ attached_files = [] then
    .errorNotSent
  else
    .sent attached_files missing_files

/-! Model: draft merge (`update_email_draft`, lines 508-579) -/

/-- The existing-headers dict comprehension
`{h['name'].lower(): h['value'] for h in headers}` followed by `.get`:
a case-insensitive lookup in which a later duplicate header overwrites
an earlier one. -/
def headers_dict (headers : List (String × String)) (key : String) : Option String :=
  ((headers.filter (fun h => lowerString h.1 = key)).getLast?).map (·.2)

/-- The simplified existing-body extraction of `update_email_draft`
(lines 533-545), run only when neither `body` nor `html_body` was
supplied: a single non-multipart part with data is checked against
`text/plain` / `text/html` by its own mimeType; otherwise the immediate
children are scanned in order (shallow, not recursive), keeping the
first plain part with a `data` key and the first html part with a
`data` key. -/
def extract_existing_bodies (payload : MimePart) : Option String × Option String :=
  match payload with
  | .node mimeType _ data _ parts =>
    if parts.isEmpty ∧ data.isSome then
      if mimeType = "text/plain" then (data, none)
      else if mimeType = "text/html" then (none, data)
      else (none, none)
    else
      parts.foldl
        (fun acc part =>
          match part with
          | .node pMime _ pData _ _ =>
            ((if acc.1 = none ∧ pMime = "text/plain" ∧ pData.isSome then pData else acc.1),
             (if acc.2 = none ∧ pMime = "text/html" ∧ pData.isSome then pData else acc.2)))
        (none, none)

/-- The keyword arguments of the `update_email_draft` tool; `none`
models an omitted argument. -/
structure DraftUpdate where
  to_field : Option String := none
  subject : Option String := none
  body : Option String := none
  cc : Option String := none
  bcc : Option String := none
  html_body : Option String := none
deriving DecidableEq, Repr

/-- The new MIME message `update_email_draft` uploads: either a
`multipart/alternative` with a plain and an html part, or a bare
`text/plain` message; plus the headers it sets (`Cc`/`Bcc` only when
truthy). -/
structure NewDraftMessage where
  isMultipart : Bool
  plainPart : Option String
  htmlPart : Option String
  to_field : String
  subject : String
  cc : Option String
  bcc : Option String
  from_email : String
deriving DecidableEq, Repr

/-- The recompose-and-stamp step of `update_email_draft` (lines
552-579): build a `multipart/alternative` when a truthy html body was
resolved (attaching an empty plain part when the plain body is not
truthy), a bare `text/plain` message when only a plain body was
resolved, and the validation error of line 563 otherwise; then set the
`To`/`Subject` headers, the `Cc`/`Bcc` headers when truthy, and the
freshly looked-up `From` address. -/
def compose_new_message (final_plain_body final_html_body : Option String)
    (final_to final_subject : String) (final_cc final_bcc : Option String)
    (from_email : String) : Except String NewDraftMessage :=
  if final_html_body.getD "" ≠ "" then
    .ok { isMultipart := true
          plainPart := some (if final_plain_body.getD "" ≠ "" then final_plain_body.getD "" else "")
          htmlPart := final_html_body
          to_field := final_to
          subject := final_subject
          cc := if final_cc.getD "" ≠ "" then final_cc else none
          bcc := if final_bcc.getD "" ≠ "" then final_bcc else none
          from_email := from_email }
  else if final_plain_body ≠ none then
    .ok { isMultipart := false
          plainPart := final_plain_body
          htmlPart := none
          to_field := final_to
          subject := final_subject
          cc := if final_cc.getD "" ≠ "" then final_cc else none
          bcc := if final_bcc.getD "" ≠ "" then final_bcc else none
          from_email := from_email }
  else
    .error "Error: Cannot update draft with empty body. Provide plain or HTML body."

/-- The draft-merge logic of `update_email_draft`, given the existing
draft's headers and payload, the update request, and the freshly
looked-up profile address: resolve each header field as
caller-supplied value else existing-header fallback, resolve the
bodies (extracting from the existing payload only when neither `body`
nor `html_body` was supplied, with the empty-string plain fallback),
then recompose. -/
def update_email_draft (headers : List (String × String)) (payload : MimePart)
    (upd : DraftUpdate) (from_email : String) : Except String NewDraftMessage :=
  let final_to := match upd.to_field with
    | some t => t
    | none => (headers_dict headers "to").getD ""
  let final_subject := match upd.subject with
    | some s => s
    | none => (headers_dict headers "subject").getD ""
  let final_cc := match upd.cc with
    | some c => some c
    | none => headers_dict headers "cc"
  let final_bcc := match upd.bcc with
    | some b => some b
    | none => headers_dict headers "bcc"
  let bodies :=
    if upd.body = none ∧ upd.html_body = none then
      let e := extract_existing_bodies payload
      ((if e.1 = none then some "" else e.1), e.2)
    else (upd.body, upd.html_body)
  compose_new_message bodies.1 bodies.2 final_to final_subject final_cc final_bcc from_email

/-! Model: mark-as-read (lines 1320-1333) -/

/-- What `mark_as_read` returns and does after fetching the message. -/
inductive MarkReadOutcome where
  | notFound : MarkReadOutcome
  | alreadyRead : MarkReadOutcome
  | marked : MarkReadOutcome
deriving DecidableEq, Repr

/-- The fetched message as far as `mark_as_read` inspects it: whether
the `labelIds` key is present and, if so, its label list. -/
structure FetchedMessage where
  labelIds : Option (List String)
deriving DecidableEq, Repr

/-- The body of `mark_as_read` after the service lookup: `none` models the
`get_message` failure (not found, early return).  The second component
is the transcript of `modify_message` calls issued, each recorded as
its `removeLabelIds` list — the early returns issue none. -/
def mark_as_read (msg : Option FetchedMessage) :
    MarkReadOutcome × List (List String) :=
  match msg with
  | none => (.notFound, [])
  | some m =>
    match m.labelIds with
    | some ls => if "UNREAD" ∉ ls then (.alreadyRead, []) else (.marked, [["UNREAD"]])
    | none => (.marked, [["UNREAD"]])

/-- Effect of a transcript of `modify_message` remove-label calls on a
message's label list: each call removes its `removeLabelIds`.  An empty
transcript leaves the mailbox state unchanged. -/
def apply_remove_calls (calls : List (List String)) (labels : List String) : List String :=
  calls.foldl (fun ls rm => ls.filter (fun l => l ∉ rm)) labels

/-! Theorems for the claims -/

/-- C3, counterexample.  The claim says sizes with `1024 <= n < 1024²`
format as `n/1024` with one decimal and unit KB, so `1024` would format
as `"1.0 KB"`; the code's strict `size > 1024` comparison leaves `1024`
formatted as `"1024 bytes"`. -/
theorem claim_C3_counterexample :
    size_str 1024 = "1024 bytes"
    ∧ fmtOneDecimal 1024 1024 ++ " KB" = "1.0 KB"
    ∧ size_str 1024 ≠ "1.0 KB" := by
  refine ⟨rfl, rfl, ?_⟩
  decide

/-- C3, amended.  Attachment size formatting uses 1024-based units with
*strict* thresholds: `n ≤ 1024` gives the byte count with unit
"bytes", `1024 < n ≤ 1024²` gives `n/1024` with one decimal and unit
"KB", and `1024² < n` gives `n/1024²` with one decimal and unit "MB"
(with no upper threshold); in particular 500 formats as "500 bytes",
2048 as "2.0 KB", and 5242880 as "5.0 MB". -/
theorem claim_C3_size_formatting_amended :
    (∀ n : Nat, n ≤ 1024 → size_str n = toString n ++ " bytes")
    ∧ (∀ n : Nat, 1024 < n → n ≤ 1024 * 1024 → size_str n = fmtOneDecimal n 1024 ++ " KB")
    ∧ (∀ n : Nat, 1024 * 1024 < n → size_str n = fmtOneDecimal n (1024 * 1024) ++ " MB")
    ∧ size_str 500 = "500 bytes"
    ∧ size_str 2048 = "2.0 KB"
    ∧ size_str 5242880 = "5.0 MB" := by
  refine ⟨?_, ?_, ?_, rfl, rfl, rfl⟩
  · intro n h
    simp only [size_str]
    rw [if_neg (by omega), if_neg (by omega)]
  · intro n h1 h2
    simp only [size_str]
    rw [if_neg (by omega), if_pos h1]
  · intro n h
    simp only [size_str]
    rw [if_pos h]

/-- C3, witness for the amended theorem at concrete sizes. -/
theorem claim_C3_size_formatting_amended_witness :
    size_str 100 = "100 bytes"
    ∧ size_str 1280 = fmtOneDecimal 1280 1024 ++ " KB"
    ∧ size_str 2097152 = fmtOneDecimal 2097152 (1024 * 1024) ++ " MB" :=
  ⟨claim_C3_size_formatting_amended.1 100 (by decide),
   claim_C3_size_formatting_amended.2.1 1280 (by decide) (by decide),
   claim_C3_size_formatting_amended.2.2.1 2097152 (by decide)⟩

/-- C5, counterexample.  The claim describes the tag-stripping step as
a *greedy* `<...>` pattern match; the code uses the non-greedy `<.*?>`.
On `"<b>Hi</b> ok"` the greedy reading deletes `<b>Hi</b>` outright
(yielding `" ok"`), while the code strips only the two tags (yielding
`"Hi ok"`), so the claim, as stated, is false of the code. -/
theorem claim_C5_counterexample :
    html_to_text "<b>Hi</b> ok" = "Hi ok"
    ∧ html_to_text_spec_greedy "<b>Hi</b> ok" = " ok"
    ∧ html_to_text "<b>Hi</b> ok" ≠ html_to_text_spec_greedy "<b>Hi</b> ok" := by
  refine ⟨rfl, rfl, ?_⟩
  decide

/-- C5, amended.  The HTML-to-text reduction replaces `<br>`/`<br/>`
and the closing tags of `p`, `div`, `h<digit>` with a newline, then
strips remaining tags via a *non-greedy* (shortest-match) `<.*?>`
pattern, then unescapes exactly the entities `&nbsp;`, `&lt;`, `&gt;`,
`&amp;` in that order with `&amp;` decoded last; `"<p>Hi</p>"` reduces
to `"Hi\n"` — `Hi` with no tags and the trailing newline inserted by
the `</p>` substitution. -/
theorem claim_C5_html_reduction_amended :
    (∀ s : String,
      html_to_text s =
        String.mk (replaceAll "&amp;".toList "&".toList
          (replaceAll "&gt;".toList ">".toList
            (replaceAll "&lt;".toList "<".toList
              (replaceAll "&nbsp;".toList " ".toList
                (stripTags (subNewlineTags s.toList)))))))
    ∧ html_to_text "<p>Hi</p>" = "Hi\n"
    ∧ html_to_text "a<br/>b" = "a\nb"
    ∧ html_to_text "<div>A</div><h2>B</h2>" = "A\nB\n"
    ∧ html_to_text "<i>x</i> y" = "x y"
    ∧ html_to_text "&nbsp;&lt;&gt;&amp;" = " <>&"
    ∧ html_to_text "&amp;lt;" = "&lt;" :=
  ⟨fun _ => rfl, rfl, rfl, rfl, rfl, rfl, rfl⟩

/-- Every header `send_email` sets is named `To`, `Subject`, `From`,
`Cc` or `Bcc`, or comes from the importance mapping. -/
theorem send_email_headers_names (toAddr subject from_email : String)
    (cc bcc imp : Option String) (q : String × String)
    (hq : q ∈ send_email_headers toAddr subject from_email cc bcc imp) :
    q.1 = "To" ∨ q.1 = "Subject" ∨ q.1 = "From" ∨ q.1 = "Cc" ∨ q.1 = "Bcc"
      ∨ q ∈ importance_headers imp := by
  unfold send_email_headers at hq
  rcases List.mem_append.1 hq with h | h
  · rcases List.mem_append.1 h with h | h
    · rcases List.mem_append.1 h with h | h
      · simp only [List.mem_cons, List.not_mem_nil, or_false] at h
        rcases h with rfl | rfl | rfl
        · exact Or.inl rfl
        · exact Or.inr (Or.inl rfl)
        · exact Or.inr (Or.inr (Or.inl rfl))
      · rcases cc with _ | c
        · exact absurd h (List.not_mem_nil q)
        · simp only [optional_header] at h
          by_cases hc : c = ""
          · rw [if_pos hc] at h
            exact absurd h (List.not_mem_nil q)
          · rw [if_neg hc] at h
            simp only [List.mem_cons, List.not_mem_nil, or_false] at h
            rw [h]
            exact Or.inr (Or.inr (Or.inr (Or.inl rfl)))
    · rcases bcc with _ | b
      · exact absurd h (List.not_mem_nil q)
      · simp only [optional_header] at h
        by_cases hb : b = ""
        · rw [if_pos hb] at h
          exact absurd h (List.not_mem_nil q)
        · rw [if_neg hb] at h
          simp only [List.mem_cons, List.not_mem_nil, or_false] at h
          rw [h]
          exact Or.inr (Or.inr (Or.inr (Or.inr (Or.inl rfl))))
  · exact Or.inr (Or.inr (Or.inr (Or.inr (Or.inr h))))

/-- C7.  Importance mapping of `send_email`: a value lowercasing to
`"high"` puts both `Importance: high` and `X-Priority: 1` among the
message headers; a value lowercasing to `"low"` puts `Importance: low`
and `X-Priority: 5`; an absent importance or any value lowercasing to
neither (`"normal"`, `"medium"`, ...) leaves the headers without any
`Importance` or `X-Priority` entry, and raises no error — the mapping
is total. -/
theorem claim_C7_importance_mapping (toAddr subject from_email : String)
    (cc bcc : Option String) (imp : Option String) :
    (∀ s, imp = some s → lowerString s = "high" →
        ("Importance", "high") ∈ send_email_headers toAddr subject from_email cc bcc imp
        ∧ ("X-Priority", "1") ∈ send_email_headers toAddr subject from_email cc bcc imp)
    ∧ (∀ s, imp = some s → lowerString s = "low" →
        ("Importance", "low") ∈ send_email_headers toAddr subject from_email cc bcc imp
        ∧ ("X-Priority", "5") ∈ send_email_headers toAddr subject from_email cc bcc imp)
    ∧ ((∀ s, imp = some s → lowerString s ≠ "high" ∧ lowerString s ≠ "low") →
        ∀ v, ("Importance", v) ∉ send_email_headers toAddr subject from_email cc bcc imp
        ∧ ("X-Priority", v) ∉ send_email_headers toAddr subject from_email cc bcc imp) := by
  refine ⟨?_, ?_, ?_⟩
  · rintro s rfl hs
    have hne : s ≠ "" := by
      intro h; rw [h] at hs; exact absurd hs (by decide)
    have himp : importance_headers (some s)
        = [("Importance", "high"), ("X-Priority", "1")] := by
      simp [importance_headers, hne, hs]
    constructor <;>
      · unfold send_email_headers
        rw [himp]
        exact List.mem_append.2 (Or.inr (by simp))
  · rintro s rfl hs
    have hne : s ≠ "" := by
      intro h; rw [h] at hs; exact absurd hs (by decide)
    have hnh : lowerString s ≠ "high" := by rw [hs]; decide
    have himp : importance_headers (some s)
        = [("Importance", "low"), ("X-Priority", "5")] := by
      simp [importance_headers, hne, hs, hnh]
    constructor <;>
      · unfold send_email_headers
        rw [himp]
        exact List.mem_append.2 (Or.inr (by simp))
  · intro hunrec v
    have himp : importance_headers imp = [] := by
      rcases imp with _ | s
      · rfl
      · rcases hunrec s rfl with ⟨h1, h2⟩
        by_cases hse : s = ""
        · simp [importance_headers, hse]
        · simp [importance_headers, hse, h1, h2]
    constructor <;>
      · intro hmem
        rcases send_email_headers_names toAddr subject from_email cc bcc imp _ hmem with
          h | h | h | h | h | h
        on_goal 6 => rw [himp] at h; exact absurd h (List.not_mem_nil _)
        all_goals simp at h

/-- C7, witness: `importance="HIGH"` (uppercase) sets both headers;
`importance="medium"` (unrecognized) sets neither. -/
theorem claim_C7_importance_mapping_witness :
    (("Importance", "high") ∈ send_email_headers "a@x.com" "S" "f@x.com" none none (some "HIGH")
      ∧ ("X-Priority", "1") ∈ send_email_headers "a@x.com" "S" "f@x.com" none none (some "HIGH"))
    ∧ (("Importance", "high") ∉ send_email_headers "a@x.com" "S" "f@x.com" none none (some "medium")
      ∧ ("X-Priority", "1") ∉ send_email_headers "a@x.com" "S" "f@x.com" none none (some "medium")) :=
  ⟨(claim_C7_importance_mapping "a@x.com" "S" "f@x.com" none none (some "HIGH")).1
      "HIGH" rfl (by decide),
   ⟨((claim_C7_importance_mapping "a@x.com" "S" "f@x.com" none none (some "medium")).2.2
      (by rintro s h; cases Option.some.inj h; exact ⟨by decide, by decide⟩) "high").1,
    ((claim_C7_importance_mapping "a@x.com" "S" "f@x.com" none none (some "medium")).2.2
      (by rintro s h; cases Option.some.inj h; exact ⟨by decide, by decide⟩) "1").2⟩⟩

/-- A part with non-empty inline data is a pure content leaf for the
extraction (shared helper). -/
theorem gba_inline_data (include_attachments : Bool)
    (mimeType filename d : String) (size : Nat) (parts : List MimePart)
    (attachments : List AttachmentInfo) (hd : d ≠ "") :
    get_body_and_attachments include_attachments
        (.node mimeType filename (some d) size parts) attachments
      = ([(mimeType, d)], attachments) := by
  unfold get_body_and_attachments
  rw [if_pos (by simpa using hd)]
  simp

/-- C8.  A part whose body carries non-empty inline data is recorded as
the single `(mimeType, decodedText)` fragment and the extraction
returns immediately: the attachment accumulator is returned untouched
and neither the filename nor the children are consulted, whatever they
are. -/
theorem claim_C8_inline_data_leaf (include_attachments : Bool)
    (mimeType filename d : String) (size : Nat) (parts : List MimePart)
    (attachments : List AttachmentInfo) (hd : d ≠ "") :
    get_body_and_attachments include_attachments
        (.node mimeType filename (some d) size parts) attachments
      = ([(mimeType, d)], attachments) :=
  gba_inline_data include_attachments mimeType filename d size parts attachments hd

/-- C8, witness: a part with data, a filename *and* children is still
treated purely as a content leaf. -/
theorem claim_C8_inline_data_leaf_witness :
    get_body_and_attachments true
        (.node "text/plain" "evil.txt" (some "hello") 7
          [.node "text/html" "" (some "<p>x</p>") 0 []]) []
      = ([("text/plain", "hello")], []) :=
  claim_C8_inline_data_leaf true "text/plain" "evil.txt" "hello" 7
    [.node "text/html" "" (some "<p>x</p>") 0 []] [] (by decide)

/-- C1, counterexample.  The round-trip claim quantifies over *every*
plain-text body string, but for the empty body the composed `text/plain`
leaf has empty data, the extraction skips it (`payload['body']['data']`
is falsy), and the resolved body is the fixed placeholder, not `""`. -/
theorem claim_C1_counterexample :
    read_email_body false (send_email_payload "" none) = (noBodyPlaceholder, [])
    ∧ noBodyPlaceholder ≠ "" :=
  ⟨rfl, by decide⟩

/-- C1, amended.  Round-trip for every *non-empty* plain-text body `X`:
composing the envelope with plain body `X`, no HTML body and no
attachments as `send_email` builds its MIME message, then decomposing
the resulting tree as `read_email` does, yields body text `X` and an
empty attachment list (whether or not attachment info was requested). -/
theorem claim_C1_roundtrip_nonempty (X : String) (include_attachments : Bool)
    (hX : X ≠ "") :
    read_email_body include_attachments (send_email_payload X none) = (X, []) := by
  have hleaf := gba_inline_data include_attachments "text/plain" "" X 0 [] [] hX
  have hroot : get_body_and_attachments include_attachments (send_email_payload X none) []
      = ([("text/plain", X)], []) := by
    show get_body_and_attachments include_attachments
        (.node "multipart/alternative" "" none 0 [.node "text/plain" "" (some X) 0 []]) []
      = ([("text/plain", X)], [])
    unfold get_body_and_attachments
    rw [if_neg (by simp), if_neg (by simp)]
    unfold gba_parts
    rw [hleaf]
    simp [gba_parts]
  unfold read_email_body
  rw [hroot]
  simp only [resolveBody]
  norm_num
  rfl

/-- C1, witness for the amended round-trip at a concrete body. -/
theorem claim_C1_roundtrip_nonempty_witness :
    read_email_body true (send_email_payload "hello world" none) = ("hello world", []) :=
  claim_C1_roundtrip_nonempty "hello world" true (by decide)

/-- C4.  Body resolution over the fragments collected by the full
traversal: if any fragment's mimeType is exactly `text/plain`, the body
is the newline-join of all such fragments; otherwise, if any fragment's
mimeType is `text/html`, the body is the HTML-to-text reduction of the
first such fragment; otherwise the body is the fixed placeholder. -/
theorem claim_C4_body_resolution (parts : List (String × String)) :
    ((∃ p ∈ parts, p.1 = "text/plain") →
      resolveBody parts =
        String.intercalate "\n" ((parts.filter (fun p => p.1 = "text/plain")).map (·.2)))
    ∧ ((¬ ∃ p ∈ parts, p.1 = "text/plain") → (∃ p ∈ parts, p.1 = "text/html") →
      ∃ h rest, (parts.filter (fun p => p.1 = "text/html")).map (·.2) = h :: rest
        ∧ resolveBody parts = html_to_text h)
    ∧ ((¬ ∃ p ∈ parts, p.1 = "text/plain") → (¬ ∃ p ∈ parts, p.1 = "text/html") →
      resolveBody parts = noBodyPlaceholder) := by
  have hiff : ∀ t : String,
      (∃ p ∈ parts, p.1 = t) ↔ (parts.filter (fun p => p.1 = t)).map (·.2) ≠ [] := by
    intro t
    rw [Ne, List.map_eq_nil_iff, List.filter_eq_nil_iff]
    push_neg
    simp
  refine ⟨?_, ?_, ?_⟩
  · intro hp
    simp only [resolveBody]
    rw [if_pos ((hiff "text/plain").1 hp)]
  · intro hnp hh
    have hne := (hiff "text/html").1 hh
    rcases hmatch : (parts.filter (fun p => p.1 = "text/html")).map (·.2) with _ | ⟨h, rest⟩
    · exact absurd hmatch hne
    · refine ⟨h, rest, hmatch, ?_⟩
      simp only [resolveBody]
      rw [if_neg (fun hc => hnp ((hiff "text/plain").2 hc)), hmatch]
  · intro hnp hnh
    simp only [resolveBody]
    rw [if_neg (fun hc => hnp ((hiff "text/plain").2 hc))]
    rcases hmatch : (parts.filter (fun p => p.1 = "text/html")).map (·.2) with _ | ⟨h, rest⟩
    · rw [hmatch]
    · exact absurd ((hiff "text/html").2 (by rw [hmatch]; simp)) hnh

/-- C4, witness: the plain-preference branch at a concrete fragment
list containing both a plain and an html fragment. -/
theorem claim_C4_body_resolution_witness :
    resolveBody [("text/html", "<p>A</p>"), ("text/plain", "B"), ("text/plain", "C")]
      = String.intercalate "\n"
          (([("text/html", "<p>A</p>"), ("text/plain", "B"), ("text/plain", "C")].filter
            (fun p => p.1 = "text/plain")).map (·.2)) :=
  (claim_C4_body_resolution _).1 ⟨("text/plain", "B"), by simp⟩

/-- C6.  Missing-file policy of `send_email_with_multiple_attachments`:
unresolvable paths are collected as missing; when at least one
attachment resolved, the message is sent carrying the attached files
and a warning listing exactly the missing paths; when the request
has paths and none resolves, the error result is returned and no send
happens. -/
theorem claim_C6_missing_attachment_policy (resolve : String → Option String)
    (attachment_paths : List String) :
    (attachment_paths ≠ [] → (∀ p ∈ attachment_paths, resolve p = none) →
      send_email_with_multiple_attachments resolve attachment_paths = .errorNotSent)
    ∧ (attachment_paths.filterMap resolve ≠ [] →
      send_email_with_multiple_attachments resolve attachment_paths
        = .sent (attachment_paths.filterMap resolve)
            (attachment_paths.filter (fun p => (resolve p).isNone))) := by
  constructor
  · intro hne hall
    have h1 : attachment_paths.filterMap resolve = [] := by
      rw [List.filterMap_eq_nil_iff]
      intro a ha
      rw [hall a ha]
    have h2 : attachment_paths.filter (fun p => (resolve p).isNone) = attachment_paths := by
      rw [List.filter_eq_self]
      intro a ha
      rw [hall a ha]
      rfl
    simp only [send_email_with_multiple_attachments]
    rw [if_pos ⟨by rw [h2]; exact hne, h1⟩]
  · intro hatt
    simp only [send_email_with_multiple_attachments]
    rw [if_neg (fun hc => hatt hc.2)]

/-- C6, witness: two unresolvable paths produce the error with no send;
one resolvable of two produces a send with the missing path warned. -/
theorem claim_C6_missing_attachment_policy_witness :
    send_email_with_multiple_attachments (fun _ => none) ["a.txt", "b.txt"] = .errorNotSent
    ∧ send_email_with_multiple_attachments
        (fun p => if p = "a.txt" then some "a.txt" else none) ["a.txt", "b.txt"]
      = .sent ["a.txt"] ["b.txt"] := by
  constructor
  · exact (claim_C6_missing_attachment_policy (fun _ => none) ["a.txt", "b.txt"]).1
      (by decide) (fun p _ => rfl)
  · have := (claim_C6_missing_attachment_policy
        (fun p => if p = "a.txt" then some "a.txt" else none) ["a.txt", "b.txt"]).2
      (by decide)
    simpa using this

/-- C10.  `mark_as_read` on an existing message whose fetched
`labelIds` does not contain `UNREAD` returns the already-marked-as-read
result and issues no `modify_message` call, so the label state is
unchanged; a modification is issued only when `UNREAD` is present or
the `labelIds` key is absent. -/
theorem claim_C10_mark_as_read (m : FetchedMessage) :
    (∀ ls, m.labelIds = some ls → "UNREAD" ∉ ls →
      mark_as_read (some m) = (.alreadyRead, [])
      ∧ apply_remove_calls (mark_as_read (some m)).2 ls = ls)
    ∧ ((mark_as_read (some m)).2 ≠ [] →
      m.labelIds = none ∨ ∃ ls, m.labelIds = some ls ∧ "UNREAD" ∈ ls) := by
  obtain ⟨lids⟩ := m
  constructor
  · rintro ls rfl hun
    rw [show mark_as_read (some ⟨some ls⟩) = (.alreadyRead, []) by
      simp only [mark_as_read]
      rw [if_pos hun]]
    exact ⟨rfl, rfl⟩
  · intro hcalls
    rcases lids with _ | ls
    · exact Or.inl rfl
    · right
      refine ⟨ls, rfl, ?_⟩
      by_contra hun
      apply hcalls
      simp only [mark_as_read]
      rw [if_pos hun]

/-- C10, witness: a message already lacking `UNREAD` is reported as
already read, with no modification issued and labels untouched. -/
theorem claim_C10_mark_as_read_witness :
    mark_as_read (some ⟨some ["INBOX", "IMPORTANT"]⟩) = (.alreadyRead, [])
    ∧ apply_remove_calls (mark_as_read (some ⟨some ["INBOX", "IMPORTANT"]⟩)).2
        ["INBOX", "IMPORTANT"] = ["INBOX", "IMPORTANT"] :=
  (claim_C10_mark_as_read ⟨some ["INBOX", "IMPORTANT"]⟩).1
    ["INBOX", "IMPORTANT"] rfl (by decide)

/-- Shared helper: whatever bodies were resolved, a successfully
composed message carries the given recipient fields (with the
truthiness filter on `Cc`/`Bcc`) and the fresh `From` address. -/
theorem compose_new_message_ok_fields (fp fh : Option String)
    (final_to final_subject : String) (final_cc final_bcc : Option String)
    (from_email : String) (msg : NewDraftMessage)
    (h : compose_new_message fp fh final_to final_subject final_cc final_bcc from_email
        = .ok msg) :
    msg.to_field = final_to
    ∧ msg.subject = final_subject
    ∧ msg.cc = (if final_cc.getD "" ≠ "" then final_cc else none)
    ∧ msg.bcc = (if final_bcc.getD "" ≠ "" then final_bcc else none)
    ∧ msg.from_email = from_email := by
  unfold compose_new_message at h
  split at h
  · cases h
    exact ⟨rfl, rfl, rfl, rfl, rfl⟩
  · split at h
    · cases h
      exact ⟨rfl, rfl, rfl, rfl, rfl⟩
    · exact absurd h (by simp)

/-- Shared helper: the header fields of any message successfully
produced by `update_email_draft` — caller value if supplied, else the
case-insensitive header lookup (with the empty-string default for
to/subject), with the truthiness filter on `Cc`/`Bcc`, and the fresh
`From` address. -/
theorem update_email_draft_ok_fields (headers : List (String × String))
    (payload : MimePart) (upd : DraftUpdate) (from_email : String)
    (msg : NewDraftMessage)
    (h : update_email_draft headers payload upd from_email = .ok msg) :
    msg.to_field = (match upd.to_field with
      | some t => t
      | none => (headers_dict headers "to").getD "")
    ∧ msg.subject = (match upd.subject with
      | some s => s
      | none => (headers_dict headers "subject").getD "")
    ∧ msg.cc = (let v := match upd.cc with
        | some c => some c
        | none => headers_dict headers "cc"
      if v.getD "" ≠ "" then v else none)
    ∧ msg.bcc = (let v := match upd.bcc with
        | some b => some b
        | none => headers_dict headers "bcc"
      if v.getD "" ≠ "" then v else none)
    ∧ msg.from_email = from_email := by
  simp only [update_email_draft] at h
  exact compose_new_message_ok_fields _ _ _ _ _ _ _ _ h

/-- C2.  Draft merge preserves untouched fields.  Instance: an existing
draft whose headers yield `to=a@x.com` and `subject=S` and whose
payload extraction yields plain body `P` (and no html), updated with
only `subject="S2"`, produces a message with `to=a@x.com`,
`subject=S2`, plain body `P`.  In general, each of to/subject/cc/bcc
of a successfully produced message takes the caller-supplied value when
present (an explicitly empty cc/bcc meaning clear), otherwise the value
found by case-insensitive lookup in the existing headers, otherwise the
empty string for to/subject and absence for cc/bcc. -/
theorem claim_C2_draft_merge :
    (∀ (headers : List (String × String)) (payload : MimePart) (S P from_email : String),
      headers_dict headers "to" = some "a@x.com" →
      headers_dict headers "subject" = some S →
      extract_existing_bodies payload = (some P, none) →
      ∃ msg, update_email_draft headers payload { subject := some "S2" } from_email = .ok msg
        ∧ msg.to_field = "a@x.com" ∧ msg.subject = "S2"
        ∧ msg.plainPart = some P ∧ msg.htmlPart = none ∧ msg.isMultipart = false)
    ∧ (∀ (headers : List (String × String)) (payload : MimePart) (upd : DraftUpdate)
        (from_email : String) (msg : NewDraftMessage),
      update_email_draft headers payload upd from_email = .ok msg →
        (msg.to_field = match upd.to_field with
          | some t => t
          | none => (headers_dict headers "to").getD "")
        ∧ (msg.subject = match upd.subject with
          | some s => s
          | none => (headers_dict headers "subject").getD "")
        ∧ (∀ c, upd.cc = some c → c ≠ "" → msg.cc = some c)
        ∧ (upd.cc = some "" → msg.cc = none)
        ∧ (upd.cc = none → ∀ v, headers_dict headers "cc" = some v → v ≠ "" → msg.cc = some v)
        ∧ (upd.cc = none → headers_dict headers "cc" = none → msg.cc = none)
        ∧ (∀ b, upd.bcc = some b → b ≠ "" → msg.bcc = some b)
        ∧ (upd.bcc = some "" → msg.bcc = none)
        ∧ (upd.bcc = none → ∀ v, headers_dict headers "bcc" = some v → v ≠ "" → msg.bcc = some v)
        ∧ (upd.bcc = none → headers_dict headers "bcc" = none → msg.bcc = none)) := by
  constructor
  · intro headers payload S P from_email hto hsub hext
    have hok : update_email_draft headers payload { subject := some "S2" } from_email
        = .ok { isMultipart := false
                plainPart := some P
                htmlPart := none
                to_field := "a@x.com"
                subject := "S2"
                cc := if (headers_dict headers "cc").getD "" ≠ ""
                      then headers_dict headers "cc" else none
                bcc := if (headers_dict headers "bcc").getD "" ≠ ""
                       then headers_dict headers "bcc" else none
                from_email := from_email } := by
      simp only [update_email_draft, hext, hto]
      simp [compose_new_message]
    exact ⟨_, hok, rfl, rfl, rfl, rfl, rfl⟩
  · intro headers payload upd from_email msg h
    obtain ⟨h1, h2, h3, h4, h5⟩ := update_email_draft_ok_fields headers payload upd from_email msg h
    refine ⟨h1, h2, ?_, ?_, ?_, ?_, ?_, ?_, ?_, ?_⟩
    · rintro c hc hcne
      rw [h3, hc]
      simp [hcne]
    · intro hc
      rw [h3, hc]
      simp
    · rintro hc v hv hvne
      rw [h3, hc, hv]
      simp [hvne]
    · intro hc hv
      rw [h3, hc, hv]
      simp
    · rintro b hb hbne
      rw [h4, hb]
      simp [hbne]
    · intro hb
      rw [h4, hb]
      simp
    · rintro hb v hv hvne
      rw [h4, hb, hv]
      simp [hvne]
    · intro hb hv
      rw [h4, hb, hv]
      simp

/-- C2, witness: a concrete draft (`To: a@x.com`, `Subject: Old`, a
multipart payload with plain body `"P"`) updated with only
`subject="S2"`. -/
theorem claim_C2_draft_merge_witness :
    ∃ msg, update_email_draft [("To", "a@x.com"), ("Subject", "Old")]
        (.node "multipart/alternative" "" none 0 [.node "text/plain" "" (some "P") 1 []])
        { subject := some "S2" } "me@x.com" = .ok msg
      ∧ msg.to_field = "a@x.com" ∧ msg.subject = "S2"
      ∧ msg.plainPart = some "P" ∧ msg.htmlPart = none ∧ msg.isMultipart = false :=
  claim_C2_draft_merge.1 [("To", "a@x.com"), ("Subject", "Old")]
    (.node "multipart/alternative" "" none 0 [.node "text/plain" "" (some "P") 1 []])
    "Old" "P" "me@x.com" (by decide) (by decide) (by decide)

/-- C9, counterexample.  With an existing draft that has a non-empty
`Cc` header, updating with `cc=""` clears the header while updating
with `cc` omitted preserves it, so the two calls are distinguishable —
the claim quantifies over *every* existing draft state. -/
theorem claim_C9_counterexample :
    update_email_draft [("To", "a@x.com"), ("Subject", "S"), ("Cc", "c@x.com")]
        (.node "text/plain" "" (some "P") 1 []) { cc := some "" } "me@x.com"
      ≠ update_email_draft [("To", "a@x.com"), ("Subject", "S"), ("Cc", "c@x.com")]
        (.node "text/plain" "" (some "P") 1 []) { cc := none } "me@x.com" := by
  intro h
  have h2 := congrArg (fun r => r.toOption.bind (fun m => m.cc)) h
  revert h2
  decide

/-- C9, amended.  An explicitly empty `cc=""` is indistinguishable from
`cc` not provided exactly when the existing draft's headers have no
non-empty `cc` entry: under that hypothesis the two update calls
produce identical messages (whatever the other fields do); with an
existing non-empty `cc` header they differ, as the counterexample
shows. -/
theorem claim_C9_cc_empty_amended (headers : List (String × String))
    (payload : MimePart) (upd : DraftUpdate) (from_email : String)
    (hcc : headers_dict headers "cc" = none ∨ headers_dict headers "cc" = some "") :
    update_email_draft headers payload { upd with cc := some "" } from_email
      = update_email_draft headers payload { upd with cc := none } from_email := by
  rcases hcc with h | h <;> simp only [update_email_draft, h]
  all_goals rfl

/-- C9, witness: a draft with no `Cc` header at all. -/
theorem claim_C9_cc_empty_amended_witness :
    update_email_draft [("To", "a@x.com"), ("Subject", "S")]
        (.node "text/plain" "" (some "P") 1 []) { cc := some "" } "me@x.com"
      = update_email_draft [("To", "a@x.com"), ("Subject", "S")]
        (.node "text/plain" "" (some "P") 1 []) { cc := none } "me@x.com" :=
  claim_C9_cc_empty_amended [("To", "a@x.com"), ("Subject", "S")]
    (.node "text/plain" "" (some "P") 1 []) {} "me@x.com" (Or.inl (by decide))

end Mcpgmail
